import Mathlib

/-!
Verification of the HRRR GRIB2-to-kerchunk reference pipeline
(`src/python/example1.py`).

The script discovers GRIB2 files in a public object store, extracts
per-message reference records into JSON sidecar files (sequentially or via a
thread pool), and combines the sidecars with an external consolidator.  The
external libraries (`scan_grib`, `ujson`, `MultiZarrToZarr`, the fsspec
filesystems) are modelled as parameters or opaque call records; the original
orchestration logic — path-segment naming, discovery with a day cap,
sequential vs. parallel iteration, and the consolidator call configuration —
is embedded below and verified.

Python primitives used by the script are embedded first:
`str.split(sep)` for a one-character separator (`pySplit`), decimal
formatting of a non-negative integer as in an f-string (`natToDec`), and
`sorted` on strings (`pySorted`).  Fallible indexing (Python `IndexError`)
is modelled with `Option`: a `none` result stands for an uncaught indexing
error.
-/

/-! ### Python string primitives -/

/-- Split a list of characters at every occurrence of the separator, keeping
empty pieces, exactly as Python's `str.split(sep)` does for a one-character
separator (`"".split(sep) == [""]`, `"a//b".split("/") == ["a","","b"]`). -/
def splitChar (sep : Char) : List Char → List (List Char)
  | [] => [[]]
  | c :: cs =>
    match splitChar sep cs with
    | [] => [[]]
    | w :: ws => if c = sep then [] :: w :: ws else (c :: w) :: ws

/-- Python `s.split(sep)` for a one-character separator. -/
def pySplit (s : String) (sep : Char) : List String :=
  (splitChar sep s.data).map List.asString

/-- Little-endian decimal digits of `n`, with `fuel` bounding the recursion
depth; for `n ≤ fuel` this is the full digit list (empty for `n = 0`). -/
def decDigitsRevAux : Nat → Nat → List Nat
  | 0, _ => []
  | fuel + 1, n => if n = 0 then [] else (n % 10) :: decDigitsRevAux fuel (n / 10)

/-- Decimal rendering of a natural number, as Python's `f'{n}'` renders a
non-negative `int`. -/
def natToDec (n : Nat) : String :=
  if n = 0 then "0" else ((decDigitsRevAux n n).reverse.map Nat.digitChar).asString

/-- Python `sorted` on a list of strings: a stable sort by the lexicographic
order on code points, which is `String`'s linear order. -/
def pySorted (l : List String) : List String :=
  l.insertionSort (fun a b => a ≤ b)

/-! ### Embedding of `src/python/example1.py` -/

/-- `JSON_DIR = '/tmp/jsons/'` (line 11). -/
def JSON_DIR : String := "/tmp/jsons/"

/-- `MAX_DAYS = 2` (line 64). -/
def MAX_DAYS : Nat := 2

/-- `file_url.split('/')[3].split('.')[1]` (line 29); `none` models an
`IndexError` from either subscript. -/
def dateSegmentOf (file_url : String) : Option String :=
  ((pySplit file_url '/')[3]?).bind fun seg => (pySplit seg '.')[1]?

/-- `file_url.split('/')[5].split('.')[1:3]` (line 30); `none` models an
`IndexError` from the `[5]` subscript (the `[1:3]` slice never raises). -/
def nameSegmentsOf (file_url : String) : Option (List String) :=
  ((pySplit file_url '/')[5]?).map fun seg => ((pySplit seg '.').take 3).drop 1

/-- `make_json_name` (lines 27-31).  Returns the sidecar path built from the
date segment, the two name segments and the message number; `none` models an
uncaught `IndexError` on a path of unexpected shape (from line 29, line 30,
or the `name_segments[0]`/`name_segments[1]` subscripts in line 31). -/
def make_json_name (file_url : String) (message_number : Nat) : Option String :=
  match dateSegmentOf file_url, nameSegmentsOf file_url with
  | some date_segment, some name_segments =>
    match name_segments[0]?, name_segments[1]? with
    | some n0, some n1 =>
      some (JSON_DIR ++ date_segment ++ "_" ++ n0 ++ "_" ++ n1 ++
        "_message" ++ natToDec message_number ++ ".json")
    | _, _ => none
  | _, _ => none

/-- The write loop of `generate_json_files` (lines 38-42) over the enumerated
message list.  Returns the `(path, serialized content)` pairs written in
order, paired with `false` when `make_json_name` raised (the writes made
before the failure are kept; later messages are not reached). -/
def writeLoop {μ : Type} (dumps : μ → String) (file_url : String) :
    List (Nat × μ) → List (String × String) × Bool
  | [] => ([], true)
  | (i, message) :: rest =>
    match make_json_name file_url i with
    | none => ([], false)
    | some json_file_name =>
      let r := writeLoop dumps file_url rest
      ((json_file_name, dumps message) :: r.1, r.2)

/-- `generate_json_files` (lines 34-42).  The external scanner `scan_grib`
(with its fixed filter and storage options) is the parameter `scan`, and the
serializer `ujson.dumps` is the parameter `dumps`; the filesystem writes are
returned as `(path, content)` pairs. -/
def generate_json_files {μ : Type} (scan : String → List μ) (dumps : μ → String)
    (file_url : String) : List (String × String) × Bool :=
  writeLoop dumps file_url (scan file_url).enum

/-- `process_files` (lines 45-48): sequential iteration.  A `false` flag from
one file is an uncaught exception: it stops the loop, so later files are not
processed. -/
def process_files {μ : Type} (scan : String → List μ) (dumps : μ → String) :
    List String → List (String × String) × Bool
  | [] => ([], true)
  | file_url :: rest =>
    let r := generate_json_files scan dumps file_url
    if r.2 then
      let r2 := process_files scan dumps rest
      (r.1 ++ r2.1, r2.2)
    else
      (r.1, false)

/-- The per-file write sequences submitted to the thread pool by
`process_files_parallel` (lines 50-53): one task per file, in list order.  A
task that raises performs its earlier writes and its exception is swallowed
by `executor.map` (the result iterator is never consumed). -/
def process_files_parallel_tasks {μ : Type} (scan : String → List μ)
    (dumps : μ → String) (file_list : List String) : List (List (String × String)) :=
  file_list.map (fun file_url => (generate_json_files scan dumps file_url).1)

/-- The observable write sequences of a thread-pool run: each task's writes
happen in task order, and writes of different tasks interleave arbitrarily.
`Interleave tasks out` holds exactly when `out` is a possible global write
order for the given per-task write sequences. -/
inductive Interleave {α : Type} : List (List α) → List α → Prop
  | done (tasks : List (List α)) : (∀ t ∈ tasks, t = []) → Interleave tasks []
  | step (tasks : List (List α)) (i : Nat) (x : α) (rest : List α) (out : List α) :
      tasks[i]? = some (x :: rest) → Interleave (tasks.set i rest) out →
      Interleave tasks (x :: out)

/-- `find_grib_files` (lines 57-73).  The two `fs_read.glob` calls are
modelled as parameters: `globDays` is the listing returned for the pattern
`s3://noaa-hrrr-bdp-pds/hrrr.*`, and `globFiles day` the listing for
`s3://{day}/conus/*wrfsfcf01.grib2`. -/
def find_grib_files (globDays : List String) (globFiles : String → List String) :
    List String :=
  let available_days := globDays
  let available_days :=
    if available_days.length > MAX_DAYS then available_days.take MAX_DAYS
    else available_days
  let file_paths :=
    available_days.flatMap fun day => (globFiles day).map fun file => "s3://" ++ file
  pySorted file_paths

/-- The argument record of the `MultiZarrToZarr(...)` constructor call
(lines 79-83); the consolidation itself is external. -/
structure MultiZarrToZarr where
  reference_jsons : List String
  concat_dims : List String
  identical_dims : List String

/-- `combine_references` (lines 76-84) up to the external consolidator call:
`fs_write.ls(json_dir)` is the parameter `fs_ls`, and the returned record is
the configuration the sorted sidecar listing is passed with.  The subsequent
`translate()` and dataset opening are external. -/
def combine_references (fs_ls : String → List String) (json_dir : String) :
    MultiZarrToZarr :=
  let reference_jsons := pySorted (fs_ls json_dir)
  { reference_jsons := reference_jsons
    concat_dims := ["valid_time"]
    identical_dims := ["latitude", "longitude", "heightAboveGround", "step"] }

/-! ### Concrete instances used by witnesses and counterexamples -/

/-- A well-formed HRRR source path (the shape documented in line 60). -/
def hrrrUrl : String := "s3://bucket/hrrr.20240101/conus/hrrr.t00z.wrfsfcf01.grib2"

/-- The same path with only the bucket segment changed. -/
def otherBucketUrl : String :=
  "s3://otherbucket/hrrr.20240101/conus/hrrr.t00z.wrfsfcf01.grib2"

/-- The sidecar name derived from `hrrrUrl` for message 0. -/
def hrrrName0 : String := "/tmp/jsons/20240101_t00z_wrfsfcf01_message0.json"

/-- A mock scanner returning one message record for every file. -/
def scanOne : String → List String := fun _ => ["mock-message"]

/-- A mock serializer: the message record is its own serialization. -/
def dumpsId : String → String := fun s => s

/-- A path whose shape `make_json_name` cannot digest (one segment). -/
def badUrl : String := "bad"

/-- A file list whose first file makes extraction raise and whose second is
well-formed. -/
def filesC4 : List String := [badUrl, hrrrUrl]

/-- An ascending day listing: the last entry is the most recent day. -/
def daysC3 : List String :=
  ["noaa-hrrr-bdp-pds/hrrr.20240101", "noaa-hrrr-bdp-pds/hrrr.20240102",
   "noaa-hrrr-bdp-pds/hrrr.20240103"]

/-- A per-day listing with one GRIB2 file per day. -/
def gfC3 : String → List String := fun day => [day ++ "/conus/hrrr.t00z.wrfsfcf01.grib2"]

/-! ### Auxiliary executable definitions used in proofs -/

/-- Boolean lexicographic comparison of character lists by code point. -/
def listCharLeB : List Char → List Char → Bool
  | [], _ => true
  | _ :: _, [] => false
  | a :: as, b :: bs => if a < b then true else if b < a then false else listCharLeB as bs

/-- Boolean lexicographic comparison of strings by code point (the order
Python's `sorted` and date comparisons on `YYYYMMDD` strings follow). -/
def strLeB (a b : String) : Bool := listCharLeB a.data b.data

/-- Value of a little-endian decimal digit list. -/
def unDigits (l : List Nat) : Nat := l.foldr (fun d r => d + 10 * r) 0

/-- Inverse of `Nat.digitChar` on decimal digits. -/
def charToDigit (c : Char) : Nat := c.toNat - 48

/-- Decimal parsing, a left inverse of `natToDec`. -/
def decodeDec (s : String) : Nat := unDigits ((s.data.map charToDigit).reverse)

/-! ### Helper lemmas -/

/-- The decimal digit machinery is a faithful rendering: evaluating the digit
list of `n` (with enough fuel) gives back `n`. -/
theorem unDigits_decDigitsRevAux : ∀ fuel n : Nat, n ≤ fuel →
    unDigits (decDigitsRevAux fuel n) = n := by
  intro fuel
  induction fuel with
  | zero => intro n h; interval_cases n; rfl
  | succ f ih =>
    intro n h
    by_cases h0 : n = 0
    · subst h0; simp [decDigitsRevAux, unDigits]
    · rw [decDigitsRevAux, if_neg h0]
      simp only [unDigits, List.foldr] at ih ⊢
      rw [ih (n / 10) (by omega)]
      omega

theorem decDigitsRevAux_lt_ten : ∀ fuel n : Nat, ∀ d ∈ decDigitsRevAux fuel n, d < 10 := by
  intro fuel
  induction fuel with
  | zero => intro n d hd; simp [decDigitsRevAux] at hd
  | succ f ih =>
    intro n d hd
    rw [decDigitsRevAux] at hd
    by_cases h0 : n = 0
    · simp [h0] at hd
    · rw [if_neg h0] at hd
      rcases List.mem_cons.mp hd with h | h
      · omega
      · exact ih _ _ h

theorem charToDigit_digitChar (d : Nat) (h : d < 10) :
    charToDigit (Nat.digitChar d) = d := by
  interval_cases d <;> rfl

theorem decodeDec_natToDec (n : Nat) : decodeDec (natToDec n) = n := by
  by_cases h0 : n = 0
  · subst h0; rfl
  · rw [natToDec, if_neg h0]
    show unDigits (((((decDigitsRevAux n n).reverse.map Nat.digitChar)).map
      charToDigit).reverse) = n
    rw [List.map_map, ← List.map_reverse, List.reverse_reverse]
    have hcong : List.map (charToDigit ∘ Nat.digitChar) (decDigitsRevAux n n) =
        List.map id (decDigitsRevAux n n) :=
      List.map_congr_left fun d hd =>
        charToDigit_digitChar d (decDigitsRevAux_lt_ten n n d hd)
    rw [hcong, List.map_id]
    exact unDigits_decDigitsRevAux n n le_rfl

theorem natToDec_injective : Function.Injective natToDec :=
  Function.LeftInverse.injective decodeDec_natToDec

theorem pySorted_sorted (l : List String) : (pySorted l).Sorted (fun a b => a ≤ b) :=
  List.sorted_insertionSort _ l

theorem pySorted_perm (l : List String) : (pySorted l).Perm l :=
  List.perm_insertionSort _ l

theorem mem_pySorted {x : String} {l : List String} : x ∈ pySorted l ↔ x ∈ l :=
  (pySorted_perm l).mem_iff

/-- The `MAX_DAYS` cap of `find_grib_files` is a plain list truncation. -/
theorem trunc_eq_take (l : List String) :
    (if l.length > MAX_DAYS then l.take MAX_DAYS else l) = l.take MAX_DAYS := by
  by_cases h : l.length > MAX_DAYS
  · rw [if_pos h]
  · rw [if_neg h, List.take_of_length_le (by omega)]

/-- Membership characterization of `find_grib_files`: the returned paths are
exactly the per-day listings of the first `MAX_DAYS` entries of the day
listing, prefixed with the scheme. -/
theorem mem_find_grib_files {days : List String} {gf : String → List String}
    {x : String} :
    x ∈ find_grib_files days gf ↔
      ∃ d ∈ days.take MAX_DAYS, ∃ f ∈ gf d, x = "s3://" ++ f := by
  simp only [find_grib_files]
  rw [trunc_eq_take, mem_pySorted, List.mem_flatMap]
  constructor
  · rintro ⟨d, hd, hx⟩
    obtain ⟨f, hf, rfl⟩ := List.mem_map.mp hx
    exact ⟨d, hd, f, hf, rfl⟩
  · rintro ⟨d, hd, f, hf, rfl⟩
    exact ⟨d, hd, List.mem_map.mpr ⟨f, hf, rfl⟩⟩

theorem find_grib_files_sorted (days : List String) (gf : String → List String) :
    (find_grib_files days gf).Sorted (fun a b => a ≤ b) :=
  pySorted_sorted _

/-- On a well-formed path, `make_json_name` succeeds with the formatted
sidecar name, for every message number. -/
theorem make_json_name_eq_of {file_url d n0 n1 : String}
    (hd : dateSegmentOf file_url = some d)
    (hn : nameSegmentsOf file_url = some [n0, n1]) (k : Nat) :
    make_json_name file_url k =
      some (JSON_DIR ++ d ++ "_" ++ n0 ++ "_" ++ n1 ++ "_message" ++
        natToDec k ++ ".json") := by
  unfold make_json_name
  rw [hd, hn]
  rfl

/-- When every message's name derivation succeeds, the write loop writes one
pair per enumerated message and reports success. -/
theorem writeLoop_all_some {μ : Type} (dumps : μ → String) (file_url : String)
    (fmt : Nat → String) (hmk : ∀ k : Nat, make_json_name file_url k = some (fmt k)) :
    ∀ l : List (Nat × μ),
      writeLoop dumps file_url l = (l.map fun p => (fmt p.1, dumps p.2), true) := by
  intro l
  induction l with
  | nil => rfl
  | cons p rest ih =>
    obtain ⟨i, m⟩ := p
    rw [writeLoop, hmk i, ih]
    rfl

/-- When every file's extraction succeeds, the sequential run performs
exactly the concatenation of the per-file write sequences. -/
theorem process_files_eq_of_ok {μ : Type} (scan : String → List μ)
    (dumps : μ → String) :
    ∀ files : List String,
      (∀ url ∈ files, (generate_json_files scan dumps url).2 = true) →
      process_files scan dumps files =
        ((process_files_parallel_tasks scan dumps files).flatten, true) := by
  intro files
  induction files with
  | nil => intro _; rfl
  | cons u us ih =>
    intro h
    have hu := h u (List.mem_cons_self u us)
    rw [process_files]
    simp only [hu, if_true]
    rw [ih fun x hx => h x (List.mem_cons_of_mem u hx)]
    simp [process_files_parallel_tasks]

/-- Removing the head element of the `i`-th task permutes the flattened
write pool by moving that element to the front. -/
theorem flatten_perm_of_get {α : Type} (x : α) (rest : List α) :
    ∀ (tasks : List (List α)) (i : Nat), tasks[i]? = some (x :: rest) →
      tasks.flatten.Perm (x :: (tasks.set i rest).flatten) := by
  intro tasks
  induction tasks with
  | nil => intro i h; simp at h
  | cons t ts ih =>
    intro i h
    cases i with
    | zero =>
      simp only [List.getElem?_cons_zero, Option.some.injEq] at h
      subst h
      simp [List.set]
    | succ i =>
      simp only [List.getElem?_cons_succ] at h
      have hperm := ih i h
      simp only [List.set, List.flatten_cons]
      exact (hperm.append_left t).trans List.perm_middle

/-- Every interleaved execution of the task pool performs exactly the
writes of the flattened task list, in some order. -/
theorem interleave_perm {α : Type} {tasks : List (List α)} {out : List α}
    (h : Interleave tasks out) : out.Perm tasks.flatten := by
  induction h with
  | done tasks hall =>
    rw [List.flatten_eq_nil_iff.mpr hall]
  | step tasks i x rest out hget _ ih =>
    exact (ih.cons x).trans (flatten_perm_of_get x rest tasks i hget).symm

/-! ### Claim theorems -/

/-- Claim C1: for the input path
`s3://bucket/hrrr.20240101/conus/hrrr.t00z.wrfsfcf01.grib2` and message
index 3, `make_json_name` returns exactly the JSON directory prefix followed
by `20240101_t00z_wrfsfcf01_message3.json`, i.e.
`/tmp/jsons/20240101_t00z_wrfsfcf01_message3.json`. -/
theorem make_json_name_hrrr_example :
    make_json_name "s3://bucket/hrrr.20240101/conus/hrrr.t00z.wrfsfcf01.grib2" 3 =
      some (JSON_DIR ++ "20240101_t00z_wrfsfcf01_message3.json") ∧
    make_json_name "s3://bucket/hrrr.20240101/conus/hrrr.t00z.wrfsfcf01.grib2" 3 =
      some "/tmp/jsons/20240101_t00z_wrfsfcf01_message3.json" :=
  ⟨by decide, by decide⟩

/-- Claim C2: for every per-day file listing, discovery over the day listing
`["d1", "d2", "d3"]` with `MAX_DAYS = 2` returns only files under the first
two listed days `d1` and `d2` (each returned path is a listed file of `d1`
or `d2` behind the `s3://` scheme), and the returned sequence is sorted
lexicographically. -/
theorem find_grib_files_first_two_days (gf : String → List String) :
    (∀ x ∈ find_grib_files ["d1", "d2", "d3"] gf,
      ∃ f, (f ∈ gf "d1" ∨ f ∈ gf "d2") ∧ x = "s3://" ++ f) ∧
    (find_grib_files ["d1", "d2", "d3"] gf).Sorted (fun a b => a ≤ b) := by
  refine ⟨?_, find_grib_files_sorted _ _⟩
  intro x hx
  rw [mem_find_grib_files] at hx
  obtain ⟨d, hd, f, hf, rfl⟩ := hx
  refine ⟨f, ?_, rfl⟩
  have hd2 : d = "d1" ∨ d = "d2" := by simpa [MAX_DAYS] using hd
  rcases hd2 with rfl | rfl
  · exact Or.inl hf
  · exact Or.inr hf

/-- Counterexample to claim C3 as stated: with the ascending listing
`daysC3` (whose lexicographically greatest — most recent — entry is
`hrrr.20240103`), the discovery cap keeps the file of the oldest day
`hrrr.20240101` and drops the file of the most recent day `hrrr.20240103`,
so truncation to the first `MAX_DAYS` does not select the most-recent days. -/
theorem find_grib_files_drops_most_recent_day :
    (∀ d ∈ daysC3, strLeB d "noaa-hrrr-bdp-pds/hrrr.20240103" = true) ∧
    "noaa-hrrr-bdp-pds/hrrr.20240103" ∈ daysC3 ∧
    "s3://noaa-hrrr-bdp-pds/hrrr.20240103/conus/hrrr.t00z.wrfsfcf01.grib2" ∉
      find_grib_files daysC3 gfC3 ∧
    "s3://noaa-hrrr-bdp-pds/hrrr.20240101/conus/hrrr.t00z.wrfsfcf01.grib2" ∈
      find_grib_files daysC3 gfC3 := by
  refine ⟨by decide, by decide, ?_, ?_⟩
  · rw [mem_find_grib_files]
    decide
  · rw [mem_find_grib_files]
    decide

/-- Claim C3 (amended): for every listing of day directories returned by the
remote glob, the discovery cap keeps exactly the files under the first
`MAX_DAYS` entries of the listing in the order the listing returns them —
not necessarily the most-recent days. -/
theorem find_grib_files_keeps_listing_head (days : List String)
    (gf : String → List String) (x : String) :
    x ∈ find_grib_files days gf ↔
      ∃ d ∈ days.take MAX_DAYS, ∃ f ∈ gf d, x = "s3://" ++ f :=
  mem_find_grib_files

/-- Counterexample to claim C4 as stated: on the file list `filesC4`, whose
first file has a malformed path and whose second is well-formed, a legal
worker-pool run writes the well-formed file's sidecar, while the sequential
run aborts on the first file's error and writes nothing — the two runs
produce different sets of output filenames. -/
theorem parallel_vs_sequential_error_divergence :
    Interleave (process_files_parallel_tasks scanOne dumpsId filesC4)
      [(hrrrName0, "mock-message")] ∧
    (process_files scanOne dumpsId filesC4).1 = [] ∧
    (process_files scanOne dumpsId filesC4).2 = false ∧
    hrrrName0 ∉ (process_files scanOne dumpsId filesC4).1.map Prod.fst ∧
    hrrrName0 ∈ ([(hrrrName0, "mock-message")] : List (String × String)).map Prod.fst := by
  refine ⟨?_, by decide, by decide, by decide, by decide⟩
  refine Interleave.step _ 1 (hrrrName0, "mock-message") [] [] (by decide) ?_
  exact Interleave.done _ (by decide)

/-- Claim C4 (amended): for every file list on which every extraction task
succeeds, every interleaved worker-pool run performs a permutation of the
sequential run's writes: the same set of output filenames with the same
content for each name, only the order of writes may differ. -/
theorem parallel_matches_sequential_writes {μ : Type} (scan : String → List μ)
    (dumps : μ → String) (files : List String) (W : List (String × String))
    (hok : ∀ url ∈ files, (generate_json_files scan dumps url).2 = true)
    (hrun : Interleave (process_files_parallel_tasks scan dumps files) W) :
    W.Perm (process_files scan dumps files).1 ∧
    ∀ p : String × String, p ∈ W ↔ p ∈ (process_files scan dumps files).1 := by
  have h1 := interleave_perm hrun
  rw [process_files_eq_of_ok scan dumps files hok]
  exact ⟨h1, fun p => h1.mem_iff⟩

/-- Witness for C4: on the one-file list `[hrrrUrl]` with the mock scanner,
the only worker-pool run writes exactly the sequential run's single pair. -/
theorem parallel_matches_sequential_writes_witness :
    ([(hrrrName0, "mock-message")] : List (String × String)).Perm
      (process_files scanOne dumpsId [hrrrUrl]).1 ∧
    ∀ p : String × String,
      p ∈ ([(hrrrName0, "mock-message")] : List (String × String)) ↔
      p ∈ (process_files scanOne dumpsId [hrrrUrl]).1 :=
  parallel_matches_sequential_writes scanOne dumpsId [hrrrUrl]
    [(hrrrName0, "mock-message")] (by decide)
    (by
      refine Interleave.step _ 0 (hrrrName0, "mock-message") [] [] (by decide) ?_
      exact Interleave.done _ (by decide))

/-- Claim C5: for every scanned source file with a well-formed path,
`generate_json_files` writes exactly one JSON sidecar per message record
returned by the scanner (no failure, one write per message, in order), at
path `<json_dir><date>_<segA>_<segB>_message<N>.json` where `N` is the
zero-based index of the message in the scanner's output sequence. -/
theorem generate_json_files_writes_per_message {μ : Type} (scan : String → List μ)
    (dumps : μ → String) (file_url d n0 n1 : String)
    (hd : dateSegmentOf file_url = some d)
    (hn : nameSegmentsOf file_url = some [n0, n1]) :
    (generate_json_files scan dumps file_url).2 = true ∧
    (generate_json_files scan dumps file_url).1.length = (scan file_url).length ∧
    ∀ i : Nat, (generate_json_files scan dumps file_url).1[i]? =
      ((scan file_url)[i]?).map fun m =>
        (JSON_DIR ++ d ++ "_" ++ n0 ++ "_" ++ n1 ++ "_message" ++ natToDec i ++ ".json",
          dumps m) := by
  have hw := writeLoop_all_some dumps file_url
    (fun k => JSON_DIR ++ d ++ "_" ++ n0 ++ "_" ++ n1 ++ "_message" ++
      natToDec k ++ ".json")
    (make_json_name_eq_of hd hn) (scan file_url).enum
  unfold generate_json_files
  rw [hw]
  refine ⟨rfl, by simp, ?_⟩
  intro i
  rw [List.getElem?_map, List.getElem?_enum]
  cases (scan file_url)[i]? <;> rfl

/-- Witness for C5: the mock scanner yields one message for `hrrrUrl`, and
the single write targets the derived zero-indexed sidecar name. -/
theorem generate_json_files_writes_per_message_witness :
    (generate_json_files scanOne dumpsId hrrrUrl).2 = true ∧
    (generate_json_files scanOne dumpsId hrrrUrl).1.length =
      (scanOne hrrrUrl).length ∧
    ∀ i : Nat, (generate_json_files scanOne dumpsId hrrrUrl).1[i]? =
      ((scanOne hrrrUrl)[i]?).map fun m =>
        (JSON_DIR ++ "20240101" ++ "_" ++ "t00z" ++ "_" ++ "wrfsfcf01" ++
          "_message" ++ natToDec i ++ ".json", dumpsId m) :=
  generate_json_files_writes_per_message scanOne dumpsId hrrrUrl
    "20240101" "t00z" "wrfsfcf01" (by decide) (by decide)

/-- Claim C6: for every file path with fewer than six `/`-separated
segments, `make_json_name` hits an out-of-range subscript (the result is
`none`, the model of Python's uncaught `IndexError`) rather than returning a
name. -/
theorem make_json_name_short_path_fails (file_url : String) (message_number : Nat)
    (h : (pySplit file_url '/').length < 6) :
    make_json_name file_url message_number = none := by
  have h5 : (pySplit file_url '/')[5]? = none := List.getElem?_eq_none (by omega)
  have hn : nameSegmentsOf file_url = none := by
    unfold nameSegmentsOf
    rw [h5]
    rfl
  unfold make_json_name
  rw [hn]
  cases dateSegmentOf file_url <;> rfl

/-- Witness for C6: a four-segment path makes `make_json_name` fail. -/
theorem make_json_name_short_path_fails_witness :
    (pySplit "s3://bucket/file.grib2" '/').length < 6 ∧
    make_json_name "s3://bucket/file.grib2" 0 = none :=
  ⟨by decide, make_json_name_short_path_fails "s3://bucket/file.grib2" 0 (by decide)⟩

/-- Claim C7: on the empty file list, the sequential run writes nothing and
raises no error, and every worker-pool run over the empty task pool writes
nothing: the downstream pipeline is silently empty. -/
theorem empty_file_list_silent {μ : Type} (scan : String → List μ)
    (dumps : μ → String) :
    process_files scan dumps [] = ([], true) ∧
    ∀ W : List (String × String),
      Interleave (process_files_parallel_tasks scan dumps []) W → W = [] := by
  refine ⟨rfl, fun W h => ?_⟩
  have hp := interleave_perm h
  exact List.perm_nil.mp hp

/-- Claim C8: for every directory listing of sidecar files,
`combine_references` passes the external consolidator a lexicographically
sorted permutation of that listing, configured with exactly the single
concatenation dimension `valid_time` and the fixed identical dimensions
`latitude`, `longitude`, `heightAboveGround`, `step`. -/
theorem combine_references_call_spec (fs_ls : String → List String)
    (json_dir : String) :
    (combine_references fs_ls json_dir).reference_jsons.Perm (fs_ls json_dir) ∧
    (combine_references fs_ls json_dir).reference_jsons.Sorted (fun a b => a ≤ b) ∧
    (combine_references fs_ls json_dir).concat_dims = ["valid_time"] ∧
    (combine_references fs_ls json_dir).identical_dims =
      ["latitude", "longitude", "heightAboveGround", "step"] :=
  ⟨pySorted_perm _, pySorted_sorted _, rfl, rfl⟩

/-- Claim C9: the derived sidecar name does not depend on the bucket
segment: if two file URLs split into the same `/`-segments except for the
third one (index 2, the bucket), `make_json_name` returns identical results
for every message index, so files from different buckets with matching date
and name segments collide on the same output name. -/
theorem make_json_name_ignores_bucket (u1 u2 b : String) (n : Nat)
    (h : pySplit u2 '/' = (pySplit u1 '/').set 2 b) :
    make_json_name u2 n = make_json_name u1 n := by
  have h3 : (pySplit u2 '/')[3]? = (pySplit u1 '/')[3]? := by
    rw [h]; exact List.getElem?_set_ne (by decide)
  have h5 : (pySplit u2 '/')[5]? = (pySplit u1 '/')[5]? := by
    rw [h]; exact List.getElem?_set_ne (by decide)
  unfold make_json_name dateSegmentOf nameSegmentsOf
  rw [h3, h5]

/-- Witness for C9: `hrrrUrl` and `otherBucketUrl` differ only in the bucket
segment and derive the same sidecar name for message 3. -/
theorem make_json_name_ignores_bucket_witness :
    pySplit otherBucketUrl '/' = (pySplit hrrrUrl '/').set 2 "otherbucket" ∧
    make_json_name otherBucketUrl 3 = make_json_name hrrrUrl 3 :=
  ⟨by decide,
    make_json_name_ignores_bucket hrrrUrl otherBucketUrl "otherbucket" 3 (by decide)⟩

/-- Claim C10: for a fixed well-formed source file path, `make_json_name` is
injective in the message index: distinct message numbers yield distinct
filenames, so the sidecars written for the messages of one source file never
overwrite each other. -/
theorem make_json_name_message_injective (file_url d n0 n1 : String) (i j : Nat)
    (hd : dateSegmentOf file_url = some d)
    (hn : nameSegmentsOf file_url = some [n0, n1])
    (hij : i ≠ j) :
    make_json_name file_url i ≠ make_json_name file_url j := by
  intro heq
  rw [make_json_name_eq_of hd hn i, make_json_name_eq_of hd hn j] at heq
  have hstr := Option.some.inj heq
  have hdata := congrArg String.data hstr
  simp only [String.data_append] at hdata
  have h1 := List.append_cancel_right hdata
  have h2 := List.append_cancel_left h1
  exact hij (natToDec_injective (String.ext h2))

/-- Witness for C10: messages 0 and 1 of `hrrrUrl` get distinct sidecars. -/
theorem make_json_name_message_injective_witness :
    make_json_name hrrrUrl 0 ≠ make_json_name hrrrUrl 1 ∧ (0 : Nat) ≠ 1 :=
  ⟨make_json_name_message_injective hrrrUrl "20240101" "t00z" "wrfsfcf01" 0 1
      (by decide) (by decide) (by decide),
    by decide⟩
